import Mathlib

/-!
Verification development for the jira-easy-mcp core modules.

The TypeScript modules under src/ are embedded shallowly:

* src/src/cache.ts   — in-memory TTL cache (CacheEntry, Cache.get, Cache.set, withCache)
* src/src/client.ts  — resilient HTTP client (isRetryableError, calculateBackoff,
                       jiraFetch, jiraAgileFetch, JiraApiException, parseErrorResponse)
* src/src/config.ts  — TOON response formatter (toToon)
* transformers       — toSimplifiedIssue (raw issue to simplified issue)

Stateful code (the cache store, the retry loop) is modelled by explicit state
passing; the wall clock (Date.now()) and the random-number generator
(Math.random()) are oracle parameters; network responses are an oracle mapping
attempt indices to outcomes.  All definitions are executable so concrete
scenarios evaluate by rfl or decide.
-/

namespace JiraMcp

/-- A JavaScript runtime value as it flows through the cache, the client body
parsing and the TOON formatter: undefined, null, booleans, numbers (the claims
only exercise integral values), strings, arrays and plain objects (ordered
key/value lists, mirroring JS insertion order). -/
inductive JSVal where
  | undef
  | null
  | bool (b : Bool)
  | num (n : Int)
  | str (s : String)
  | arr (xs : List JSVal)
  | obj (fields : List (String × JSVal))
deriving Repr

/-- The JS test "v === null || v === undefined". -/
def isNullOrUndef : JSVal → Bool
  | .null => true
  | .undef => true
  | _ => false

/-- The JS test "v !== undefined" (tag check against the undefined sentinel). -/
def isUndef : JSVal → Bool
  | .undef => true
  | _ => false

/-! String helpers.  These mirror the JavaScript string operations used by the
sources (String.prototype.includes for a single character, split, trimStart,
startsWith, Array.prototype.join, String.prototype.repeat), implemented over
the character list so that they compute by kernel reduction. -/

/-- JS "s.includes(c)" for a single character. -/
def strContainsChar (s : String) (c : Char) : Bool :=
  s.data.contains c

/-- Core of JS "s.split(sep)" for a one-character separator. -/
def splitCharsOn (sep : Char) : List Char → List (List Char)
  | [] => [[]]
  | c :: rest =>
    let r := splitCharsOn sep rest
    if c = sep then [] :: r
    else
      match r with
      | h :: t => (c :: h) :: t
      | [] => [c] :: []

/-- JS "s.split(sep)" for a one-character separator. -/
def jsSplit (s : String) (sep : Char) : List String :=
  (splitCharsOn sep s.data).map String.mk

/-- JS "s.trimStart()": drop leading whitespace. -/
def jsTrimStart (s : String) : String :=
  String.mk (s.data.dropWhile Char.isWhitespace)

/-- Character-list prefix test. -/
def listIsPrefixOf : List Char → List Char → Bool
  | [], _ => true
  | _ :: _, [] => false
  | a :: as, b :: bs => a == b && listIsPrefixOf as bs

/-- JS "s.startsWith(p)". -/
def strStartsWith (s p : String) : Bool :=
  listIsPrefixOf p.data s.data

/-- JS "parts.join(sep)" (Array.prototype.join over strings). -/
def jsJoin (sep : String) : List String → String
  | [] => ""
  | [x] => x
  | x :: rest => x ++ sep ++ jsJoin sep rest

/-- JS "s.repeat(n)". -/
def strRepeat (s : String) (n : Nat) : String :=
  match n with
  | 0 => ""
  | n + 1 => s ++ strRepeat s n

/-!
## Cache module — src/src/cache.ts

The store of the Cache class is a JS Map, modelled as an association list with
JS Map semantics (set replaces an existing binding in place, delete removes
it).  Date.now() is the explicit parameter "now" (milliseconds).  Mutation is
modelled by returning the updated store.
-/

/-- CacheEntry from cache.ts: the stored value plus the absolute expiry
instant in milliseconds. -/
structure CacheEntry where
  value : JSVal
  expiresAt : Int
deriving Repr

/-- The private "store" Map of the Cache class. -/
abbrev CacheStore := List (String × CacheEntry)

/-- JS "map.get(key)": first binding for the key. -/
def storeLookup : CacheStore → String → Option CacheEntry
  | [], _ => none
  | (k, e) :: rest, key => if k = key then some e else storeLookup rest key

/-- JS "map.set(key, e)": replace the existing binding in place, else append. -/
def storeSet : CacheStore → String → CacheEntry → CacheStore
  | [], key, e => [(key, e)]
  | (k, e') :: rest, key, e =>
    if k = key then (key, e) :: rest else (k, e') :: storeSet rest key e

/-- JS "map.delete(key)": remove the binding for the key. -/
def storeDelete (store : CacheStore) (key : String) : CacheStore :=
  store.filter (fun kv => !(kv.1 = key : Bool))

/-- Cache.get from cache.ts.  Returns undefined when the key is absent; when
the entry is expired (now strictly past expiresAt) it deletes the entry and
returns undefined; otherwise it returns the stored value.  The result pairs
the returned value with the store after the call (get mutates on eviction).
The logCacheHit/logCacheMiss calls are side-effect free logging. -/
def cacheGet (store : CacheStore) (now : Int) (key : String) : JSVal × CacheStore :=
  match storeLookup store key with
  | none => (JSVal.undef, store)
  | some entry =>
    if now > entry.expiresAt then (JSVal.undef, storeDelete store key)
    else (entry.value, store)

/-- Whether Cache.get at this store and instant takes its logCacheHit branch
(entry present and not yet strictly past expiry). -/
def cacheGetLogsHit (store : CacheStore) (now : Int) (key : String) : Bool :=
  match storeLookup store key with
  | none => false
  | some entry => !(now > entry.expiresAt : Bool)

/-- Cache.set from cache.ts: ttl is the optional ttlSeconds argument,
defaulting to config.cacheTtl; expiresAt is Date.now() plus ttl seconds. -/
def cacheSet (store : CacheStore) (now : Int) (key : String) (value : JSVal)
    (ttlSeconds : Option Int) (cacheTtl : Int) : CacheStore :=
  let ttl := ttlSeconds.getD cacheTtl
  let expiresAt := now + ttl * 1000
  storeSet store key { value := value, expiresAt := expiresAt }

/-- Result of one withCache call: the value returned to the caller, the store
after the call, and how many times the producer fn was invoked. -/
structure WithCacheResult where
  result : JSVal
  store : CacheStore
  producerCalls : Nat
deriving Repr

/-- withCache from cache.ts.  The async producer fn is modelled by the value
it would produce; producerCalls counts its invocations.  The TS code treats
cache.get's result as a hit exactly when it is not undefined. -/
def withCache (store : CacheStore) (now : Int) (key : String)
    (producer : JSVal) (ttlSeconds : Option Int) (cacheTtl : Int) : WithCacheResult :=
  let cached := cacheGet store now key
  if !(isUndef cached.1) then
    { result := cached.1, store := cached.2, producerCalls := 0 }
  else
    let result := producer
    { result := result
      store := cacheSet cached.2 now key result ttlSeconds cacheTtl
      producerCalls := 1 }

/-!
## Resilient client — src/src/client.ts

The two request families (jiraFetch for the v2 API, jiraAgileFetch for the
agile API) share one retry loop and differ only in their error classification,
so the loop is a single function parameterized by the classifier, exactly as
the two textually-duplicated loops in client.ts.  Per-process effects that do
not influence the claimed behavior (URL construction, auth header, the SSL
agent, logging) are not part of the state.

The network is an oracle mapping the attempt index to that attempt's outcome:
an HTTP response, an abort by the per-attempt cancellation timer (AbortError),
or a transport-level TypeError.  Math.random() is an oracle mapping the
attempt index to the random sample for that attempt's backoff computation.
-/

/-- isRetryableError from client.ts. -/
def isRetryableError (status : Nat) : Bool :=
  status == 429 || status == 502 || status == 503 || status == 504

/-- calculateBackoff from client.ts over exact rationals: baseDelay times
2 to the attempt, plus Math.random() times baseDelay as jitter, capped at
30000 ms.  The rand argument is the Math.random() sample in the interval
from 0 inclusive to 1 exclusive. -/
def calculateBackoff (attempt : Nat) (baseDelay : ℚ) (rand : ℚ) : ℚ :=
  let exponentialDelay := baseDelay * 2 ^ attempt
  let jitter := rand * baseDelay
  min (exponentialDelay + jitter) 30000

/-- An HTTP response as the client observes it: the status, whether the
content-type header declares JSON, the decoded JSON error document fields
(errorMessages list and errors map, empty when not present), the raw body
text, the parsed JSON body for success paths, and whether the content-length
header is the literal "0". -/
structure HttpResponse where
  status : Nat
  contentTypeJson : Bool
  errorMessages : List String
  errors : List (String × String)
  bodyText : String
  body : JSVal
  contentLengthZero : Bool
deriving Repr

/-- response.ok: status in the 2xx range. -/
def responseOk (status : Nat) : Bool :=
  200 ≤ status && status ≤ 299

/-- parseErrorResponse from client.ts: for a JSON content type join the
errorMessages list and the field-to-message pairs with "; ", falling back to
"HTTP status"; otherwise the raw body text, falling back to "HTTP status". -/
def parseErrorResponse (r : HttpResponse) : String :=
  if r.contentTypeJson then
    let messages := r.errorMessages ++ r.errors.map (fun kv => kv.1 ++ ": " ++ kv.2)
    if messages.length > 0 then jsJoin "; " messages
    else "HTTP " ++ toString r.status
  else if !(r.bodyText = "" : Bool) then r.bodyText
  else "HTTP " ++ toString r.status

/-- An error value thrown by the client: the JiraApiException class carrying
message and status, a transport TypeError, or a plain Error. -/
inductive JsError where
  | jiraApiException (message : String) (status : Nat)
  | typeError (message : String)
  | genericError (message : String)
deriving Repr, DecidableEq

/-- The non-2xx classification of jiraFetch (client.ts lines 159-187):
dedicated messages for 401, 403, 404 and 429, generic otherwise. -/
def classifyErrorV2 (status : Nat) (errorText : String) : JsError :=
  if status = 401 then
    .jiraApiException "Authentication failed. Check your JIRA_USERNAME and JIRA_PASSWORD." status
  else if status = 403 then
    .jiraApiException
      "Access forbidden. CAPTCHA may be triggered - log in via browser first, or check permissions."
      status
  else if status = 404 then
    .jiraApiException ("Resource not found: " ++ errorText) status
  else if status = 429 then
    .jiraApiException "Rate limited by Jira. Please wait and try again." status
  else
    .jiraApiException ("Jira API error (" ++ toString status ++ "): " ++ errorText) status

/-- The non-2xx classification of jiraAgileFetch (client.ts lines 292-295). -/
def classifyErrorAgile (status : Nat) (errorText : String) : JsError :=
  .jiraApiException ("Jira Agile API error (" ++ toString status ++ "): " ++ errorText) status

/-- What one attempt of the retry loop observes. -/
inductive AttemptOutcome where
  | http (r : HttpResponse)
  | abortError
  | typeError (message : String)
deriving Repr

/-- How a fetch call resolves: the parsed body, or a thrown error. -/
inductive FetchResult where
  | success (body : JSVal)
  | failure (e : JsError)
deriving Repr

/-- Observable trace of one jiraFetch/jiraAgileFetch call: the resolution,
the backoff delays slept in order, and the number of loop iterations
(attempts) entered. -/
structure FetchTrace where
  result : FetchResult
  waits : List ℚ
  attempts : Nat
deriving Repr

/-- The retry loop shared by jiraFetch and jiraAgileFetch (client.ts lines
131-229 and 264-334).  The loop counter runs attempt = 0 up to retryCount;
remaining is retryCount minus attempt, so the guard "attempt < retryCount"
is "remaining > 0".  A 2xx response resolves with the parsed body (undefined
for 204 or an explicit zero content-length); a non-2xx retryable status with
attempts remaining sleeps calculateBackoff and continues; any other non-2xx
throws the classified JiraApiException.  An AbortError becomes the timeout
JiraApiException with status 0, retried while attempts remain; a TypeError is
retried while attempts remain and rethrown on the final attempt. -/
def fetchLoop (classify : Nat → String → JsError) (retryDelay : ℚ) (timeout : Nat)
    (rand : Nat → ℚ) (out : Nat → AttemptOutcome) :
    Nat → Nat → FetchTrace
  | attempt, 0 =>
    match out attempt with
    | .http r =>
      if responseOk r.status then
        { result := .success (if r.status = 204 || r.contentLengthZero then JSVal.undef else r.body)
          waits := [], attempts := 1 }
      else
        { result := .failure (classify r.status (parseErrorResponse r))
          waits := [], attempts := 1 }
    | .abortError =>
      { result := .failure
          (JsError.jiraApiException ("Request timeout after " ++ toString timeout ++ "ms") 0)
        waits := [], attempts := 1 }
    | .typeError m =>
      { result := .failure (JsError.typeError m), waits := [], attempts := 1 }
  | attempt, rem + 1 =>
    match out attempt with
    | .http r =>
      if responseOk r.status then
        { result := .success (if r.status = 204 || r.contentLengthZero then JSVal.undef else r.body)
          waits := [], attempts := 1 }
      else if isRetryableError r.status then
        let delay := calculateBackoff attempt retryDelay (rand attempt)
        let rest := fetchLoop classify retryDelay timeout rand out (attempt + 1) rem
        { result := rest.result, waits := delay :: rest.waits, attempts := rest.attempts + 1 }
      else
        { result := .failure (classify r.status (parseErrorResponse r))
          waits := [], attempts := 1 }
    | .abortError =>
      let delay := calculateBackoff attempt retryDelay (rand attempt)
      let rest := fetchLoop classify retryDelay timeout rand out (attempt + 1) rem
      { result := rest.result, waits := delay :: rest.waits, attempts := rest.attempts + 1 }
    | .typeError _ =>
      let delay := calculateBackoff attempt retryDelay (rand attempt)
      let rest := fetchLoop classify retryDelay timeout rand out (attempt + 1) rem
      { result := rest.result, waits := delay :: rest.waits, attempts := rest.attempts + 1 }

/-- jiraFetch from client.ts: the retry loop with the v2 error
classification, started at attempt 0 with retryCount attempts remaining. -/
def jiraFetch (retryCount : Nat) (retryDelay : ℚ) (timeout : Nat)
    (rand : Nat → ℚ) (out : Nat → AttemptOutcome) : FetchTrace :=
  fetchLoop classifyErrorV2 retryDelay timeout rand out 0 retryCount

/-- jiraAgileFetch from client.ts: the same loop with the agile error
classification. -/
def jiraAgileFetch (retryCount : Nat) (retryDelay : ℚ) (timeout : Nat)
    (rand : Nat → ℚ) (out : Nat → AttemptOutcome) : FetchTrace :=
  fetchLoop classifyErrorAgile retryDelay timeout rand out 0 retryCount

/-!
## Transformer — toSimplifiedIssue (data transformers module, types from src/src/types.ts)

Raw wire types are embedded with Option for the optional (question-mark)
members.  The open index signature of JiraIssueFields (any further key to an
unknown value, which is where custom fields arrive) is the extra list; the
statically declared members never begin with "customfield_", so scanning
Object.entries(fields) for that prefix is equivalent to scanning extra.
The changelog/renderedFields members of JiraIssue are not read by any
transformer and are elided.
-/

/-- JiraStatus.statusCategory from types.ts. -/
structure JiraStatusCategory where
  self : String
  id : Int
  key : String
  name : String
  colorName : String
deriving Repr, DecidableEq

/-- JiraStatus from types.ts. -/
structure JiraStatus where
  self : String
  id : String
  name : String
  description : Option String
  statusCategory : Option JiraStatusCategory
deriving Repr, DecidableEq

/-- JiraIssueType from types.ts. -/
structure JiraIssueType where
  self : String
  id : String
  name : String
  description : Option String
  iconUrl : Option String
  subtask : Bool
deriving Repr, DecidableEq

/-- JiraPriority from types.ts. -/
structure JiraPriority where
  self : String
  id : String
  name : String
  iconUrl : Option String
deriving Repr, DecidableEq

/-- JiraResolution from types.ts. -/
structure JiraResolution where
  self : String
  id : String
  name : String
  description : Option String
deriving Repr, DecidableEq

/-- JiraUser from types.ts (avatarUrls as an ordered key/value list). -/
structure JiraUser where
  self : String
  key : String
  name : String
  emailAddress : Option String
  displayName : String
  active : Bool
  avatarUrls : Option (List (String × String))
  timeZone : Option String
deriving Repr, DecidableEq

/-- JiraComponent from types.ts. -/
structure JiraComponent where
  self : String
  id : String
  name : String
  description : Option String
deriving Repr, DecidableEq

/-- JiraVersion from types.ts. -/
structure JiraVersion where
  self : String
  id : String
  name : String
  description : Option String
  archived : Bool
  released : Bool
  releaseDate : Option String
  startDate : Option String
deriving Repr, DecidableEq

/-- The nested fields object of a linked issue, parent or subtask stub in
types.ts (summary, status, issuetype). -/
structure JiraStubFields where
  summary : String
  status : JiraStatus
  issuetype : JiraIssueType
deriving Repr, DecidableEq

/-- The issue stub shape used by JiraIssueLink.inwardIssue/outwardIssue,
JiraIssueFields.parent and JiraIssueFields.subtasks in types.ts. -/
structure JiraIssueStub where
  id : String
  key : String
  self : String
  fields : JiraStubFields
deriving Repr, DecidableEq

/-- JiraIssueLink.type from types.ts: the link type with its two
direction-specific relation labels. -/
structure JiraLinkType where
  id : String
  name : String
  inward : String
  outward : String
deriving Repr, DecidableEq

/-- JiraIssueLink from types.ts: at most one of inwardIssue/outwardIssue is
populated by the tracker for a given link record. -/
structure JiraIssueLink where
  id : String
  self : String
  type : JiraLinkType
  inwardIssue : Option JiraIssueStub
  outwardIssue : Option JiraIssueStub
deriving Repr, DecidableEq

/-- JiraComment from types.ts. -/
structure JiraComment where
  self : String
  id : String
  author : JiraUser
  body : String
  created : String
  updated : String
  updateAuthor : Option JiraUser
deriving Repr, DecidableEq

/-- JiraWorklog from types.ts. -/
structure JiraWorklog where
  self : String
  id : String
  author : JiraUser
  updateAuthor : Option JiraUser
  comment : Option String
  started : String
  timeSpent : String
  timeSpentSeconds : Int
  created : String
  updated : String
deriving Repr, DecidableEq

/-- JiraAttachment from types.ts. -/
structure JiraAttachment where
  self : String
  id : String
  filename : String
  author : JiraUser
  created : String
  size : Int
  mimeType : String
  content : String
deriving Repr, DecidableEq

/-- JiraIssueFields.comment from types.ts (paginated comment container). -/
structure JiraCommentContainer where
  comments : List JiraComment
  maxResults : Int
  total : Int
  startAt : Int
deriving Repr, DecidableEq

/-- JiraIssueFields.worklog from types.ts (paginated worklog container). -/
structure JiraWorklogContainer where
  worklogs : List JiraWorklog
  maxResults : Int
  total : Int
  startAt : Int
deriving Repr, DecidableEq

/-- JiraIssueFields.timetracking from types.ts. -/
structure JiraTimetracking where
  originalEstimate : Option String
  remainingEstimate : Option String
  timeSpent : Option String
  originalEstimateSeconds : Option Int
  remainingEstimateSeconds : Option Int
  timeSpentSeconds : Option Int
deriving Repr, DecidableEq

/-- JiraIssueFields from types.ts; extra is the open index signature. -/
structure JiraIssueFields where
  summary : String
  description : Option String
  status : JiraStatus
  priority : Option JiraPriority
  issuetype : JiraIssueType
  assignee : Option JiraUser
  reporter : Option JiraUser
  creator : Option JiraUser
  labels : Option (List String)
  components : Option (List JiraComponent)
  fixVersions : Option (List JiraVersion)
  versions : Option (List JiraVersion)
  resolution : Option JiraResolution
  resolutiondate : Option String
  created : String
  updated : String
  duedate : Option String
  parent : Option JiraIssueStub
  subtasks : Option (List JiraIssueStub)
  issuelinks : Option (List JiraIssueLink)
  comment : Option JiraCommentContainer
  worklog : Option JiraWorklogContainer
  attachment : Option (List JiraAttachment)
  timetracking : Option JiraTimetracking
  extra : List (String × JSVal)
deriving Repr

/-- JiraIssue from types.ts. -/
structure JiraIssue where
  id : String
  key : String
  self : String
  expand : Option String
  fields : JiraIssueFields
deriving Repr

/-- SimplifiedIssue.parent from types.ts. -/
structure SimplifiedParent where
  key : String
  summary : String
  type : String
deriving Repr, DecidableEq

/-- SimplifiedIssue.subtasks element from types.ts. -/
structure SimplifiedSubtask where
  key : String
  summary : String
  status : String
  type : String
deriving Repr, DecidableEq

/-- SimplifiedIssue.links element linkedIssue from types.ts. -/
structure SimplifiedLinkedIssue where
  key : String
  summary : String
  status : String
  type : String
deriving Repr, DecidableEq

/-- SimplifiedIssue.links element from types.ts: direction is the literal
string "inward" or "outward". -/
structure SimplifiedLink where
  id : String
  type : String
  direction : String
  linkedIssue : SimplifiedLinkedIssue
deriving Repr, DecidableEq

/-- SimplifiedIssue.comments element from types.ts. -/
structure SimplifiedComment where
  id : String
  author : String
  body : String
  created : String
  updated : String
deriving Repr, DecidableEq

/-- SimplifiedIssue.worklogs element from types.ts. -/
structure SimplifiedWorklog where
  id : String
  author : String
  timeSpent : String
  started : String
  comment : Option String
deriving Repr, DecidableEq

/-- SimplifiedIssue.attachments element from types.ts. -/
structure SimplifiedAttachment where
  id : String
  filename : String
  author : String
  size : Int
  mimeType : String
  created : String
deriving Repr, DecidableEq

/-- SimplifiedIssue.timeTracking from types.ts. -/
structure SimplifiedTimeTracking where
  originalEstimate : Option String
  remainingEstimate : Option String
  timeSpent : Option String
deriving Repr, DecidableEq

/-- SimplifiedIssue from types.ts. -/
structure SimplifiedIssue where
  key : String
  id : String
  self : String
  summary : String
  status : String
  statusCategory : Option String
  priority : Option String
  type : String
  assignee : Option String
  assigneeEmail : Option String
  reporter : Option String
  reporterEmail : Option String
  description : Option String
  labels : List String
  components : List String
  fixVersions : List String
  resolution : Option String
  created : String
  updated : String
  dueDate : Option String
  parent : Option SimplifiedParent
  subtasks : Option (List SimplifiedSubtask)
  links : Option (List SimplifiedLink)
  comments : Option (List SimplifiedComment)
  worklogs : Option (List SimplifiedWorklog)
  attachments : Option (List SimplifiedAttachment)
  timeTracking : Option SimplifiedTimeTracking
  customFields : List (String × JSVal)
deriving Repr

/-- Stand-in for the value of the TS non-null assertions link.inwardIssue!
and link.outwardIssue! when the asserted member is in fact absent (a state
the tracker never produces for a well-formed link; in TS the subsequent
member accesses would crash with a TypeError). -/
def missingLinkedIssue : JiraIssueStub :=
  { id := "", key := "", self := ""
    fields :=
      { summary := ""
        status := { self := "", id := "", name := "", description := none, statusCategory := none }
        issuetype :=
          { self := "", id := "", name := "", description := none, iconUrl := none
            subtask := false } } }

/-- The link-mapping arrow function inside toSimplifiedIssue: isInward is
the truthiness of link.inwardIssue; the linked issue is the asserted present
side; the relation label is the direction-appropriate one of the link type. -/
def toSimplifiedIssueLink (link : JiraIssueLink) : SimplifiedLink :=
  let isInward := link.inwardIssue.isSome
  let linkedIssue := (if isInward then link.inwardIssue else link.outwardIssue).getD missingLinkedIssue
  { id := link.id
    type := if isInward then link.type.inward else link.type.outward
    direction := if isInward then "inward" else "outward"
    linkedIssue :=
      { key := linkedIssue.key
        summary := linkedIssue.fields.summary
        status := linkedIssue.fields.status.name
        type := linkedIssue.fields.issuetype.name } }

/-- toSimplifiedIssue from the transformers module: flattens a raw issue to
the simplified shape.  Optional chains become Option.map/bind, the
logical-or defaults for labels/components/fixVersions become getD, and the
custom-field scan keeps extra entries whose key starts with "customfield_"
and whose value is neither null nor undefined. -/
def toSimplifiedIssue (issue : JiraIssue) : SimplifiedIssue :=
  let fields := issue.fields
  let customFields :=
    fields.extra.filter (fun kv => strStartsWith kv.1 "customfield_" && !(isNullOrUndef kv.2))
  let links := fields.issuelinks.map (fun ls => ls.map toSimplifiedIssueLink)
  let subtasks := fields.subtasks.map (fun sts => sts.map (fun subtask =>
    { key := subtask.key
      summary := subtask.fields.summary
      status := subtask.fields.status.name
      type := subtask.fields.issuetype.name : SimplifiedSubtask }))
  let parent := fields.parent.map (fun p =>
    { key := p.key, summary := p.fields.summary, type := p.fields.issuetype.name : SimplifiedParent })
  let comments := fields.comment.map (fun c => c.comments.map (fun comment =>
    { id := comment.id
      author := comment.author.displayName
      body := comment.body
      created := comment.created
      updated := comment.updated : SimplifiedComment }))
  let worklogs := fields.worklog.map (fun w => w.worklogs.map (fun worklog =>
    { id := worklog.id
      author := worklog.author.displayName
      timeSpent := worklog.timeSpent
      started := worklog.started
      comment := worklog.comment : SimplifiedWorklog }))
  let attachments := fields.attachment.map (fun atts => atts.map (fun att =>
    { id := att.id
      filename := att.filename
      author := att.author.displayName
      size := att.size
      mimeType := att.mimeType
      created := att.created : SimplifiedAttachment }))
  { key := issue.key
    id := issue.id
    self := issue.self
    summary := fields.summary
    status := fields.status.name
    statusCategory := fields.status.statusCategory.map (fun sc => sc.name)
    priority := fields.priority.map (fun p => p.name)
    type := fields.issuetype.name
    assignee := fields.assignee.map (fun u => u.displayName)
    assigneeEmail := fields.assignee.bind (fun u => u.emailAddress)
    reporter := fields.reporter.map (fun u => u.displayName)
    reporterEmail := fields.reporter.bind (fun u => u.emailAddress)
    description := fields.description
    labels := fields.labels.getD []
    components := (fields.components.map (fun cs => cs.map (fun c => c.name))).getD []
    fixVersions := (fields.fixVersions.map (fun vs => vs.map (fun v => v.name))).getD []
    resolution := fields.resolution.map (fun r => r.name)
    created := fields.created
    updated := fields.updated
    dueDate := fields.duedate
    parent := parent
    subtasks := subtasks
    links := links
    comments := comments
    worklogs := worklogs
    attachments := attachments
    timeTracking := fields.timetracking.map (fun tt =>
      { originalEstimate := tt.originalEstimate
        remainingEstimate := tt.remainingEstimate
        timeSpent := tt.timeSpent : SimplifiedTimeTracking })
    customFields := customFields }

/-!
## TOON formatter — toToon in src/src/config.ts

Note the template literals at config.ts lines 127, 149 and 152 contain the
escape sequence backslash-backslash-n, which in JavaScript denotes a literal
backslash followed by the letter n, not a newline; the embedding reproduces
those two characters exactly (in Lean likewise as a backslash-backslash-n
escape).  The per-line joins on those same lines use a real newline.
-/

/-- The element test of the inline-array branch of toToon: typeof item is
string or number. -/
def isStrOrNum : JSVal → Bool
  | .str _ => true
  | .num _ => true
  | _ => false

/-- How JS Array.prototype.join renders one element.  Only strings and
numbers reach the inline branch of toToon; the remaining cases follow the
JS rules (null and undefined render empty) and are unreachable there. -/
def jsArrayJoinItem : JSVal → String
  | .str s => s
  | .num n => toString n
  | .bool b => toString b
  | _ => ""

/-- The JS test "typeof value === 'object'": objects, arrays and null. -/
def jsTypeofIsObject : JSVal → Bool
  | .obj _ => true
  | .arr _ => true
  | .null => true
  | _ => false

/-- The first object-branch guard in toToon: typeof value is object, value
is not null, and value is not an array. -/
def isPlainObject : JSVal → Bool
  | .obj _ => true
  | _ => false

/-- The second object-branch guard in toToon: value is a non-empty array
whose first element has typeof object. -/
def isNonEmptyArrObjHead : JSVal → Bool
  | .arr (x :: _) => jsTypeofIsObject x
  | _ => false

mutual

/-- toToon from config.ts.  null and undefined render as the token null;
a string containing a newline renders as the pipe marker followed by the
literal two characters backslash n and the input lines each prefixed with
the current indent plus one extra level, joined by real newlines; numbers
and booleans render via String(); an empty array renders as a bracket pair;
an array whose elements are all strings or numbers renders inline bracketed
and comma-joined; any other array renders one dash entry per element; an
object renders its non-null non-undefined entries one per line, a plain
object value or a non-empty array value with an object-typed head being
introduced by the key, a colon and the literal two characters backslash n. -/
def toToon (v : JSVal) (indent : Nat) : String :=
  let spaces := strRepeat "  " indent
  match v with
  | .null => "null"
  | .undef => "null"
  | .str s =>
    if strContainsChar s '\n' then
      "|\\n" ++ jsJoin "\n" ((jsSplit s '\n').map (fun line => spaces ++ "  " ++ line))
    else s
  | .num n => toString n
  | .bool b => toString b
  | .arr xs =>
    if xs.isEmpty then "[]"
    else if xs.all isStrOrNum then
      "[" ++ jsJoin ", " (xs.map jsArrayJoinItem) ++ "]"
    else
      jsJoin "\n" (toToonItems xs indent)
  | .obj fields =>
    let entries := fields.filter (fun kv => !(isNullOrUndef kv.2))
    if entries.isEmpty then "{}"
    else jsJoin "\n" (toToonEntries fields indent)

/-- The element mapping of the dash-list branch of toToon: the current
indent, a dash, and the element rendered one level deeper with its leading
whitespace trimmed. -/
def toToonItems (xs : List JSVal) (indent : Nat) : List String :=
  match xs with
  | [] => []
  | x :: rest =>
    (strRepeat "  " indent ++ "- " ++ jsTrimStart (toToon x (indent + 1))) :: toToonItems rest indent

/-- The entry mapping of the object branch of toToon.  The source filters
the null/undefined entries first and then maps over the survivors; skipping
them inside the recursion produces the identical list of lines. -/
def toToonEntries (fields : List (String × JSVal)) (indent : Nat) : List String :=
  match fields with
  | [] => []
  | (key, value) :: rest =>
    if isNullOrUndef value then toToonEntries rest indent
    else
      let spaces := strRepeat "  " indent
      let valueStr := toToon value (indent + 1)
      let line :=
        if isPlainObject value then spaces ++ key ++ ":\\n" ++ valueStr
        else if isNonEmptyArrObjHead value then spaces ++ key ++ ":\\n" ++ valueStr
        else spaces ++ key ++ ": " ++ valueStr
      line :: toToonEntries rest indent

end

/-- A scalar in the wording of the specification's formatter section: a
value that renders as its literal text, that is a string, a number or a
boolean.  Stated from the spec for comparison against the code's inline-list
element test, which accepts only strings and numbers. -/
def specScalar : JSVal → Bool
  | .str _ => true
  | .num _ => true
  | .bool _ => true
  | _ => false

/-!
## Concrete fixtures for witness scenarios
-/

/-- A minimal raw status for concrete scenarios. -/
def sampleStatus : JiraStatus :=
  { self := "s", id := "1", name := "Open", description := none, statusCategory := none }

/-- A minimal raw issue type for concrete scenarios. -/
def sampleIssueType : JiraIssueType :=
  { self := "t", id := "10", name := "Task", description := none, iconUrl := none
    subtask := false }

/-- A linked-issue stub for concrete scenarios. -/
def sampleStub : JiraIssueStub :=
  { id := "20", key := "PRJ-2", self := "u"
    fields := { summary := "Linked", status := sampleStatus, issuetype := sampleIssueType } }

/-- A raw link whose outward nested issue alone is present. -/
def sampleLink : JiraIssueLink :=
  { id := "100", self := "l"
    type := { id := "lt", name := "Blocks", inward := "is blocked by", outward := "blocks" }
    inwardIssue := none
    outwardIssue := some sampleStub }

/-- Raw issue fields with every optional member absent. -/
def sampleFields : JiraIssueFields :=
  { summary := "Sum", description := none, status := sampleStatus, priority := none
    issuetype := sampleIssueType, assignee := none, reporter := none, creator := none
    labels := none, components := none, fixVersions := none, versions := none
    resolution := none, resolutiondate := none, created := "c", updated := "u"
    duedate := none, parent := none, subtasks := none, issuelinks := none
    comment := none, worklog := none, attachment := none, timetracking := none
    extra := [] }

/-- A raw issue with no assignee and no list-valued fields. -/
def sampleIssueBare : JiraIssue :=
  { id := "30", key := "PRJ-1", self := "i", expand := none, fields := sampleFields }

/-- A raw issue carrying exactly the outward-only sample link. -/
def sampleIssueWithLink : JiraIssue :=
  { id := "31", key := "PRJ-3", self := "j", expand := none
    fields := { sampleFields with issuelinks := some [sampleLink] } }

/-- A concrete 503 response for scenarios. -/
def resp503 : HttpResponse :=
  { status := 503, contentTypeJson := false, errorMessages := [], errors := []
    bodyText := "", body := JSVal.null, contentLengthZero := false }

/-- A concrete 200 response with a string body for scenarios. -/
def resp200 : HttpResponse :=
  { status := 200, contentTypeJson := true, errorMessages := [], errors := []
    bodyText := "", body := JSVal.str "ok", contentLengthZero := false }

/-- A concrete 401 response for scenarios. -/
def resp401 : HttpResponse :=
  { status := 401, contentTypeJson := false, errorMessages := [], errors := []
    bodyText := "", body := JSVal.null, contentLengthZero := false }

/-- A response sequence for scenarios: 503, 503, then 200 from the third
attempt onward. -/
def out503x2then200 : Nat → AttemptOutcome :=
  fun n =>
    match n with
    | 0 => .http resp503
    | 1 => .http resp503
    | _ => .http resp200

/-!
## Shared lemmas about the cache store
-/

/-- Looking up a key right after setting it yields the new entry. -/
theorem storeLookup_storeSet_self (store : CacheStore) (key : String) (e : CacheEntry) :
    storeLookup (storeSet store key e) key = some e := by
  induction store with
  | nil => simp [storeSet, storeLookup]
  | cons kv rest ih =>
    obtain ⟨k, e'⟩ := kv
    by_cases hk : k = key
    · simp [storeSet, storeLookup, hk]
    · simp [storeSet, storeLookup, hk, ih]

/-- Looking up a key right after deleting it yields nothing. -/
theorem storeLookup_storeDelete_self (store : CacheStore) (key : String) :
    storeLookup (storeDelete store key) key = none := by
  induction store with
  | nil => simp [storeDelete, storeLookup]
  | cons kv rest ih =>
    obtain ⟨k, e'⟩ := kv
    by_cases hk : k = key
    · simpa [storeDelete, storeLookup, hk] using ih
    · simpa [storeDelete, storeLookup, hk] using ih

/-- When Cache.get takes its miss branch, the returned value is undefined. -/
theorem cacheGet_miss_undef (store : CacheStore) (now : Int) (key : String)
    (h : cacheGetLogsHit store now key = false) :
    (cacheGet store now key).1 = JSVal.undef := by
  unfold cacheGet
  unfold cacheGetLogsHit at h
  cases hl : storeLookup store key with
  | none => simp
  | some entry =>
    rw [hl] at h
    have h' : now > entry.expiresAt := by simpa using h
    simp [h']

/-- When Cache.get takes its hit branch, it leaves the store untouched. -/
theorem cacheGet_hit_snd (store : CacheStore) (now : Int) (key : String)
    (h : cacheGetLogsHit store now key = true) :
    (cacheGet store now key).2 = store := by
  unfold cacheGet
  unfold cacheGetLogsHit at h
  cases hl : storeLookup store key with
  | none => simp
  | some entry =>
    rw [hl] at h
    have h' : ¬(now > entry.expiresAt) := by simpa using h
    simp [h']

/-!
## Claims about the cache (C4, C5)
-/

/-- C5: an entry stored by set(key, value, t) at instant s is returned
unchanged by every get at an instant not strictly past the expiry instant
s plus t seconds; a get at an instant strictly past the expiry instant
reports absence (the undefined sentinel) and evicts the entry on that touch,
after which the key is absent from the store and every later get is
indistinguishable from a get of an absent key. -/
theorem cache_set_get_ttl (store : CacheStore) (key : String) (v : JSVal)
    (t s now dflt : Int) :
    (now ≤ s + t * 1000 →
      cacheGet (cacheSet store s key v (some t) dflt) now key =
        (v, cacheSet store s key v (some t) dflt))
    ∧ (s + t * 1000 < now →
      cacheGet (cacheSet store s key v (some t) dflt) now key =
        (JSVal.undef, storeDelete (cacheSet store s key v (some t) dflt) key)
      ∧ storeLookup (storeDelete (cacheSet store s key v (some t) dflt) key) key = none
      ∧ ∀ later : Int,
          cacheGet (storeDelete (cacheSet store s key v (some t) dflt) key) later key =
            (JSVal.undef, storeDelete (cacheSet store s key v (some t) dflt) key)) := by
  have hset : storeLookup (cacheSet store s key v (some t) dflt) key =
      some { value := v, expiresAt := s + t * 1000 } := by
    unfold cacheSet
    simpa using storeLookup_storeSet_self store key _
  have hdel := storeLookup_storeDelete_self (cacheSet store s key v (some t) dflt) key
  constructor
  · intro hle
    unfold cacheGet
    rw [hset]
    simp [not_lt.mpr hle]
  · intro hgt
    refine ⟨?_, hdel, ?_⟩
    · unfold cacheGet
      rw [hset]
      simp [hgt]
    · intro later
      unfold cacheGet
      rw [hdel]

/-- Witness for C5 at a concrete store, entry and instants: store at s = 0
with a one-second TTL, read at 500 ms (fresh) and at 1200 ms (expired). -/
theorem cache_set_get_ttl_witness :
    cacheGet (cacheSet [] 0 "k" (JSVal.str "v") (some 1) 300) 500 "k" =
      (JSVal.str "v", cacheSet [] 0 "k" (JSVal.str "v") (some 1) 300)
    ∧ cacheGet (cacheSet [] 0 "k" (JSVal.str "v") (some 1) 300) 1200 "k" =
      (JSVal.undef, storeDelete (cacheSet [] 0 "k" (JSVal.str "v") (some 1) 300) "k") := by
  have h₁ := (cache_set_get_ttl [] "k" (JSVal.str "v") 1 0 500 300).1 (by norm_num)
  have h₂ := (cache_set_get_ttl [] "k" (JSVal.str "v") 1 0 1200 300).2 (by norm_num)
  exact ⟨h₁, h₂.1⟩

/-- C4 counterexample: a stored entry whose value is the undefined sentinel.
Cache.get takes its hit branch (the entry is present and unexpired), yet
withCache invokes the producer once, not zero times, because the returned
undefined is indistinguishable from a miss. -/
theorem withCache_counterexample :
    cacheGetLogsHit [("k", { value := JSVal.undef, expiresAt := 1000 })] 0 "k" = true
    ∧ (withCache [("k", { value := JSVal.undef, expiresAt := 1000 })] 0 "k"
        (JSVal.num 7) none 300).producerCalls = 1 := by
  exact ⟨rfl, rfl⟩

/-- C4 (amended): for every producer result distinct from the undefined
sentinel, withCache on a cache hit returns the cached value with zero
producer invocations and leaves the store untouched, and on a miss invokes
the producer exactly once, stores its result under the overridden or default
TTL, and returns it. -/
theorem withCache_spec (store : CacheStore) (now : Int) (key : String)
    (producer : JSVal) (ttl : Option Int) (cacheTtl : Int) :
    (cacheGetLogsHit store now key = true →
      isUndef (cacheGet store now key).1 = false →
      withCache store now key producer ttl cacheTtl =
        { result := (cacheGet store now key).1, store := store, producerCalls := 0 })
    ∧ (cacheGetLogsHit store now key = false →
      withCache store now key producer ttl cacheTtl =
        { result := producer
          store := cacheSet (cacheGet store now key).2 now key producer ttl cacheTtl
          producerCalls := 1 }
      ∧ storeLookup (withCache store now key producer ttl cacheTtl).store key =
          some { value := producer, expiresAt := now + ttl.getD cacheTtl * 1000 }) := by
  constructor
  · intro hhit hval
    have hsnd := cacheGet_hit_snd store now key hhit
    simp only [withCache, hval, Bool.not_false, if_true]
    rw [hsnd]
  · intro hmiss
    have hu := cacheGet_miss_undef store now key hmiss
    have heq : withCache store now key producer ttl cacheTtl =
        { result := producer
          store := cacheSet (cacheGet store now key).2 now key producer ttl cacheTtl
          producerCalls := 1 } := by
      simp [withCache, hu, isUndef]
    refine ⟨heq, ?_⟩
    rw [heq]
    unfold cacheSet
    simpa using storeLookup_storeSet_self (cacheGet store now key).2 key _

/-- Witness for C4 at concrete inputs: a hit on a fresh entry returns the
stored string without invoking the producer; a miss on the empty store
invokes the producer once and stores the result with the default TTL. -/
theorem withCache_spec_witness :
    withCache [("k", { value := JSVal.str "cached", expiresAt := 1000 })] 0 "k"
        (JSVal.str "fresh") none 300 =
      { result := JSVal.str "cached"
        store := [("k", { value := JSVal.str "cached", expiresAt := 1000 })]
        producerCalls := 0 }
    ∧ (withCache [] 0 "k" (JSVal.str "fresh") none 300).producerCalls = 1
    ∧ storeLookup (withCache [] 0 "k" (JSVal.str "fresh") none 300).store "k" =
        some { value := JSVal.str "fresh", expiresAt := 300000 } := by
  have h₁ := (withCache_spec [("k", { value := JSVal.str "cached", expiresAt := 1000 })]
    0 "k" (JSVal.str "fresh") none 300).1 rfl rfl
  have h₂ := (withCache_spec [] 0 "k" (JSVal.str "fresh") none 300).2 rfl
  refine ⟨by simpa using h₁, by rw [h₂.1], by simpa using h₂.2⟩

/-!
## Claim about the backoff computation (C2)
-/

/-- C2: for every attempt index n, base delay d at least 0, and Math.random
sample in the unit interval, the computed backoff equals the minimum of
d times 2 to the n plus the jitter (the sample times d) and 30000; the
jitter lies in the interval from 0 to d (strictly below d when d is
positive), and the delay is bounded between d times 2 to the n and that
value plus d, both ends capped at 30000. -/
theorem calculateBackoff_bounds (n : Nat) (d rand : ℚ)
    (hr0 : 0 ≤ rand) (hr1 : rand < 1) (hd : 0 ≤ d) :
    calculateBackoff n d rand = min (d * 2 ^ n + rand * d) 30000
    ∧ 0 ≤ rand * d
    ∧ (0 < d → rand * d < d)
    ∧ min (d * 2 ^ n) 30000 ≤ calculateBackoff n d rand
    ∧ calculateBackoff n d rand ≤ min (d * 2 ^ n + d) 30000 := by
  have hj0 : 0 ≤ rand * d := mul_nonneg hr0 hd
  have hjd : rand * d ≤ d := by
    calc rand * d ≤ 1 * d := mul_le_mul_of_nonneg_right hr1.le hd
    _ = d := one_mul d
  refine ⟨rfl, hj0, ?_, ?_, ?_⟩
  · intro hdpos
    calc rand * d < 1 * d := (mul_lt_mul_right hdpos).mpr hr1
    _ = d := one_mul d
  · exact min_le_min (by linarith) le_rfl
  · exact min_le_min (by linarith) le_rfl

/-- Witness for C2 at attempt 2, base delay 1000 and sample one half. -/
theorem calculateBackoff_bounds_witness :
    calculateBackoff 2 1000 (1 / 2) = min (1000 * 2 ^ 2 + (1 / 2) * 1000) 30000
    ∧ min ((1000 : ℚ) * 2 ^ 2) 30000 ≤ calculateBackoff 2 1000 (1 / 2)
    ∧ calculateBackoff 2 1000 (1 / 2) ≤ min (1000 * 2 ^ 2 + 1000) 30000 := by
  have h := calculateBackoff_bounds 2 1000 (1 / 2) (by norm_num) (by norm_num) (by norm_num)
  exact ⟨h.1, h.2.2.2.1, h.2.2.2.2⟩

/-!
## Claims about the transformer (C6, C7)
-/

/-- C6: the transformer resolves a link's direction by which nested issue
object is present: with only the outward nested issue present the simplified
link has direction outward and its relation label is the link type's outward
name; with the inward nested issue present, direction inward with the inward
name. -/
theorem toSimplifiedIssue_link_direction (issue : JiraIssue) (link : JiraIssueLink)
    (stub : JiraIssueStub) (hlinks : issue.fields.issuelinks = some [link]) :
    (link.inwardIssue = none → link.outwardIssue = some stub →
      (toSimplifiedIssue issue).links = some
        [{ id := link.id
           type := link.type.outward
           direction := "outward"
           linkedIssue :=
             { key := stub.key, summary := stub.fields.summary
               status := stub.fields.status.name, type := stub.fields.issuetype.name } }])
    ∧ (link.inwardIssue = some stub →
      (toSimplifiedIssue issue).links = some
        [{ id := link.id
           type := link.type.inward
           direction := "inward"
           linkedIssue :=
             { key := stub.key, summary := stub.fields.summary
               status := stub.fields.status.name, type := stub.fields.issuetype.name } }]) := by
  constructor
  · intro hin hout
    simp [toSimplifiedIssue, toSimplifiedIssueLink, hlinks, hin, hout]
  · intro hin
    simp [toSimplifiedIssue, toSimplifiedIssueLink, hlinks, hin]

/-- Witness for C6: the concrete outward-only sample link transforms to an
outward-direction simplified link labelled with the outward name. -/
theorem toSimplifiedIssue_link_direction_witness :
    (toSimplifiedIssue sampleIssueWithLink).links = some
      [{ id := sampleLink.id
         type := sampleLink.type.outward
         direction := "outward"
         linkedIssue :=
           { key := sampleStub.key, summary := sampleStub.fields.summary
             status := sampleStub.fields.status.name
             type := sampleStub.fields.issuetype.name } }] :=
  (toSimplifiedIssue_link_direction sampleIssueWithLink sampleLink sampleStub rfl).1 rfl rfl

/-- C7: transforming a raw issue with no assignee and no labels yields an
absent assignee and the empty labels list, and the other missing list-valued
fields components and fixVersions likewise default to the empty list. -/
theorem toSimplifiedIssue_defaults (issue : JiraIssue)
    (ha : issue.fields.assignee = none) (hl : issue.fields.labels = none) :
    (toSimplifiedIssue issue).assignee = none
    ∧ (toSimplifiedIssue issue).labels = []
    ∧ (issue.fields.components = none → (toSimplifiedIssue issue).components = [])
    ∧ (issue.fields.fixVersions = none → (toSimplifiedIssue issue).fixVersions = []) := by
  refine ⟨?_, ?_, ?_, ?_⟩
  · simp [toSimplifiedIssue, ha]
  · simp [toSimplifiedIssue, hl]
  · intro hc
    simp [toSimplifiedIssue, hc]
  · intro hv
    simp [toSimplifiedIssue, hv]

/-- Witness for C7 at the bare sample issue. -/
theorem toSimplifiedIssue_defaults_witness :
    (toSimplifiedIssue sampleIssueBare).assignee = none
    ∧ (toSimplifiedIssue sampleIssueBare).labels = []
    ∧ (toSimplifiedIssue sampleIssueBare).components = []
    ∧ (toSimplifiedIssue sampleIssueBare).fixVersions = [] := by
  have h := toSimplifiedIssue_defaults sampleIssueBare rfl rfl
  exact ⟨h.1, h.2.1, h.2.2.1 rfl, h.2.2.2 rfl⟩

/-!
## Claims about the TOON formatter (C8, C9)
-/

/-- C8: evaluating toToon at the object with a equal to 1 and b equal to the
two-line string shows the actual output.  The scalar member renders as the
plain line a colon 1, but the multi-line member is not an indented block of
one output line per input line: the template literals in the source emit the
two literal characters backslash n (not a newline) after the pipe marker, so
the first input line is glued onto the key's own output line, and only the
second input line becomes a separate (four-space indented) output line. -/
theorem toToon_multiline_string_glued :
    toToon (.obj [("a", .num 1), ("b", .str "line1\nline2")]) 0
      = "a: 1\nb: |\\n    line1\n    line2"
    ∧ jsSplit (toToon (.obj [("a", .num 1), ("b", .str "line1\nline2")]) 0) '\n'
      = ["a: 1", "b: |\\n    line1", "    line2"] :=
  ⟨rfl, rfl⟩

/-- C9 counterexample: booleans are scalars in the spec's sense (they render
as their literal text), yet a non-empty all-boolean list does not render as a
single inline bracketed comma-joined line: the code's inline test accepts
only strings and numbers, so the list renders as dash lines. -/
theorem toToon_scalar_list_counterexample :
    specScalar (JSVal.bool true) = true
    ∧ specScalar (JSVal.bool false) = true
    ∧ toToon (.arr [.bool true, .bool false]) 0 = "- true\n- false"
    ∧ ¬ toToon (.arr [.bool true, .bool false]) 0 = "[true, false]" := by
  refine ⟨rfl, rfl, rfl, ?_⟩
  decide

/-- Newlines in a join come from the separator or from the parts. -/
theorem jsJoin_no_newline (sep : String) (l : List String)
    (hsep : '\n' ∉ sep.data) (h : ∀ s ∈ l, '\n' ∉ s.data) :
    '\n' ∉ (jsJoin sep l).data := by
  induction l with
  | nil => simp [jsJoin]
  | cons x rest ih =>
    cases rest with
    | nil => simpa [jsJoin] using h x (by simp)
    | cons y r =>
      have hx := h x (by simp)
      have hj := ih (fun s hs => h s (by simp [hs]))
      show '\n' ∉ (x ++ sep ++ jsJoin sep (y :: r)).data
      simp only [String.data_append, List.mem_append, not_or]
      exact ⟨⟨hx, hsep⟩, hj⟩

/-- The dash-list branch produces exactly one entry per element. -/
theorem toToonItems_length (xs : List JSVal) (indent : Nat) :
    (toToonItems xs indent).length = xs.length := by
  induction xs with
  | nil => rfl
  | cons x rest ih => simp [toToonItems, ih]

/-- Every entry of the dash-list branch is the indent, a dash and a space,
followed by the element's rendering. -/
theorem toToonItems_shape (xs : List JSVal) (indent : Nat) :
    ∀ l ∈ toToonItems xs indent,
      ∃ tail, l = strRepeat "  " indent ++ "- " ++ tail := by
  induction xs with
  | nil => simp [toToonItems]
  | cons x rest ih =>
    intro l hl
    rw [show toToonItems (x :: rest) indent =
      (strRepeat "  " indent ++ "- " ++ jsTrimStart (toToon x (indent + 1)))
        :: toToonItems rest indent from rfl] at hl
    rcases List.mem_cons.mp hl with hl | hl
    · exact ⟨jsTrimStart (toToon x (indent + 1)), hl⟩
    · exact ih l hl

/-- C9 (amended): a non-empty list whose elements are all strings or numbers
renders as the bracket-enclosed comma-join of their literal texts, on a
single physical line whenever no element's text itself contains a newline;
a list containing any element that is not a string or a number renders as
the newline-join of one dash-prefixed entry per element, each entry carrying
the current indent, a dash and a space. -/
theorem toToon_list_rendering (xs : List JSVal) (indent : Nat) (hne : xs ≠ []) :
    (xs.all isStrOrNum = true →
      toToon (.arr xs) indent = "[" ++ jsJoin ", " (xs.map jsArrayJoinItem) ++ "]"
      ∧ ((∀ x ∈ xs, '\n' ∉ (jsArrayJoinItem x).data) →
          '\n' ∉ (toToon (.arr xs) indent).data))
    ∧ (xs.all isStrOrNum = false →
      toToon (.arr xs) indent = jsJoin "\n" (toToonItems xs indent)
      ∧ (toToonItems xs indent).length = xs.length
      ∧ ∀ l ∈ toToonItems xs indent,
          ∃ tail, l = strRepeat "  " indent ++ "- " ++ tail) := by
  constructor
  · intro hall
    have hrender : toToon (.arr xs) indent =
        "[" ++ jsJoin ", " (xs.map jsArrayJoinItem) ++ "]" := by
      cases xs with
      | nil => exact absurd rfl hne
      | cons x rest => simp [toToon, hall]
    refine ⟨hrender, ?_⟩
    intro hnone
    rw [hrender]
    have hmid : '\n' ∉ (jsJoin ", " (xs.map jsArrayJoinItem)).data := by
      refine jsJoin_no_newline ", " _ (by decide) ?_
      intro s hs
      obtain ⟨x, hx, rfl⟩ := List.mem_map.mp hs
      exact hnone x hx
    simp only [String.data_append, List.mem_append, not_or]
    exact ⟨⟨by decide, hmid⟩, by decide⟩
  · intro hnotall
    have hrender : toToon (.arr xs) indent = jsJoin "\n" (toToonItems xs indent) := by
      cases xs with
      | nil => exact absurd rfl hne
      | cons x rest => simp [toToon, hnotall]
    exact ⟨hrender, toToonItems_length xs indent, toToonItems_shape xs indent⟩

/-- Witness for C9 at concrete lists: a string/number list renders inline on
one line, and a boolean-bearing list renders one dash entry per element. -/
theorem toToon_list_rendering_witness :
    toToon (.arr [.str "a", .num 3]) 0
      = "[" ++ jsJoin ", " ([JSVal.str "a", JSVal.num 3].map jsArrayJoinItem) ++ "]"
    ∧ '\n' ∉ (toToon (.arr [JSVal.str "a", JSVal.num 3]) 0).data
    ∧ toToon (.arr [.bool true]) 0 = jsJoin "\n" (toToonItems [JSVal.bool true] 0)
    ∧ (toToonItems [JSVal.bool true] 0).length = [JSVal.bool true].length := by
  have h₁ := (toToon_list_rendering [.str "a", .num 3] 0 (by simp)).1 rfl
  have h₂ := (toToon_list_rendering [.bool true] 0 (by simp)).2 rfl
  exact ⟨h₁.1, h₁.2 (by decide), h₂.1, h₂.2.1⟩

/-!
## Shared lemmas about the retry loop
-/

/-- A retryable status (429, 502, 503, 504) is never in the 2xx range. -/
theorem isRetryableError_not_ok (s : Nat) (h : isRetryableError s = true) :
    responseOk s = false := by
  unfold isRetryableError at h
  simp only [Bool.or_eq_true, beq_iff_eq] at h
  rcases h with ((h | h) | h) | h <;> subst h <;> rfl

/-- The loop enters at most remaining plus one iterations. -/
theorem fetchLoop_attempts_le (classify : Nat → String → JsError) (rd : ℚ) (t : Nat)
    (rand : Nat → ℚ) (out : Nat → AttemptOutcome) :
    ∀ remaining attempt,
      (fetchLoop classify rd t rand out attempt remaining).attempts ≤ remaining + 1 := by
  intro remaining
  induction remaining with
  | zero =>
    intro attempt
    unfold fetchLoop
    cases h : out attempt with
    | http r =>
      by_cases hok : responseOk r.status = true
      · simp [hok]
      · simp only [Bool.not_eq_true] at hok
        simp [hok]
    | abortError => simp
    | typeError m => simp
  | succ rem ih =>
    intro attempt
    unfold fetchLoop
    cases h : out attempt with
    | http r =>
      by_cases hok : responseOk r.status = true
      · simp [hok]
      · simp only [Bool.not_eq_true] at hok
        cases hr : isRetryableError r.status
        · simp [hok, hr]
        · have := ih (attempt + 1)
          simp only [hok, hr]
          simp
          omega
    | abortError =>
      have := ih (attempt + 1)
      simp
      omega
    | typeError m =>
      have := ih (attempt + 1)
      simp
      omega

/-- When every attempt up to the remaining budget answers with a retryable
HTTP status, the loop sleeps once per non-final attempt and resolves by
throwing the classification of the final attempt's response. -/
theorem fetchLoop_exhaustion (classify : Nat → String → JsError) (rd : ℚ) (t : Nat)
    (rand : Nat → ℚ) (out : Nat → AttemptOutcome) :
    ∀ remaining attempt,
      (∀ i, i ≤ remaining → ∃ r, out (attempt + i) = .http r ∧ isRetryableError r.status = true) →
      ∃ r, out (attempt + remaining) = .http r
        ∧ (fetchLoop classify rd t rand out attempt remaining).result =
            .failure (classify r.status (parseErrorResponse r))
        ∧ (fetchLoop classify rd t rand out attempt remaining).waits.length = remaining
        ∧ (fetchLoop classify rd t rand out attempt remaining).attempts = remaining + 1 := by
  intro remaining
  induction remaining with
  | zero =>
    intro attempt hall
    obtain ⟨r, hr, hretry⟩ := hall 0 (le_refl 0)
    rw [Nat.add_zero] at hr
    have hok := isRetryableError_not_ok r.status hretry
    refine ⟨r, by simpa using hr, ?_, ?_, ?_⟩ <;>
      simp [fetchLoop, hr, hok]
  | succ rem ih =>
    intro attempt hall
    obtain ⟨r0, hr0, hretry0⟩ := hall 0 (Nat.zero_le _)
    rw [Nat.add_zero] at hr0
    have hok0 := isRetryableError_not_ok r0.status hretry0
    have hshift : ∀ i, i ≤ rem →
        ∃ r, out (attempt + 1 + i) = .http r ∧ isRetryableError r.status = true := by
      intro i hi
      have := hall (i + 1) (by omega)
      simpa [Nat.add_assoc, Nat.add_comm 1 i] using this
    obtain ⟨r, hr, hres, hlen, hatt⟩ := ih (attempt + 1) hshift
    refine ⟨r, by rw [show attempt + (rem + 1) = attempt + 1 + rem by omega]; exact hr, ?_, ?_, ?_⟩ <;>
      simp [fetchLoop, hr0, hok0, hretry0, hres, hlen, hatt]

/-- When every attempt up to the remaining budget is aborted by the
cancellation timer, the loop resolves by throwing the timeout
JiraApiException with status 0. -/
theorem fetchLoop_all_abort (classify : Nat → String → JsError) (rd : ℚ) (t : Nat)
    (rand : Nat → ℚ) (out : Nat → AttemptOutcome) :
    ∀ remaining attempt,
      (∀ i, i ≤ remaining → out (attempt + i) = .abortError) →
      (fetchLoop classify rd t rand out attempt remaining).result =
        .failure (.jiraApiException ("Request timeout after " ++ toString t ++ "ms") 0) := by
  intro remaining
  induction remaining with
  | zero =>
    intro attempt hall
    have h0 : out attempt = .abortError := by simpa using hall 0 (le_refl 0)
    simp [fetchLoop, h0]
  | succ rem ih =>
    intro attempt hall
    have h0 : out attempt = .abortError := by simpa using hall 0 (Nat.zero_le _)
    have hshift : ∀ i, i ≤ rem → out (attempt + 1 + i) = .abortError := by
      intro i hi
      have := hall (i + 1) (by omega)
      simpa [Nat.add_assoc, Nat.add_comm 1 i] using this
    have := ih (attempt + 1) hshift
    simp [fetchLoop, h0, this]

/-- Both error classifiers carry the response status into the thrown
JiraApiException unchanged. -/
theorem classify_carries_status (status : Nat) (errorText : String) :
    (∃ m, classifyErrorV2 status errorText = .jiraApiException m status)
    ∧ (∃ m, classifyErrorAgile status errorText = .jiraApiException m status) := by
  constructor
  · unfold classifyErrorV2
    split_ifs <;> exact ⟨_, rfl⟩
  · exact ⟨_, rfl⟩

/-- When every outcome is an HTTP response with a valid status (at least
100) and the classifier carries statuses unchanged, any JiraApiException
the loop throws carries a status of at least 100. -/
theorem fetchLoop_http_status_lower_bound (classify : Nat → String → JsError) (rd : ℚ)
    (t : Nat) (rand : Nat → ℚ) (out : Nat → AttemptOutcome)
    (hclass : ∀ s txt, ∃ m, classify s txt = .jiraApiException m s)
    (hout : ∀ i, ∃ r, out i = .http r ∧ 100 ≤ r.status) :
    ∀ remaining attempt m s,
      (fetchLoop classify rd t rand out attempt remaining).result =
        .failure (.jiraApiException m s) → 100 ≤ s := by
  intro remaining
  induction remaining with
  | zero =>
    intro attempt m s hres
    obtain ⟨r, hr, hst⟩ := hout attempt
    by_cases hok : responseOk r.status = true
    · simp [fetchLoop, hr, hok] at hres
    · simp only [Bool.not_eq_true] at hok
      obtain ⟨m', hm'⟩ := hclass r.status (parseErrorResponse r)
      simp [fetchLoop, hr, hok, hm'] at hres
      omega
  | succ rem ih =>
    intro attempt m s hres
    obtain ⟨r, hr, hst⟩ := hout attempt
    by_cases hok : responseOk r.status = true
    · simp [fetchLoop, hr, hok] at hres
    · simp only [Bool.not_eq_true] at hok
      cases hretry : isRetryableError r.status
      · obtain ⟨m', hm'⟩ := hclass r.status (parseErrorResponse r)
        simp [fetchLoop, hr, hok, hretry, hm'] at hres
        omega
      · simp only [fetchLoop, hr, hok, hretry] at hres
        exact ih (attempt + 1) m s (by simpa using hres)

/-!
## Claims about the client (C1, C3, C10)
-/

/-- C1: a jiraFetch with retryCount 3 whose attempts answer 503, 503 then
200 succeeds with the parsed body of the 200 response after exactly three
attempts and exactly two backoff waits; in general the loop enters at most
retryCount plus one attempts, and when every attempt up to retryCount
answers a retryable status the loop retries through all of them and the
final exhausted attempt throws the classified error. -/
theorem jiraFetch_retry_behavior :
    (∀ (e1 e2 okr : HttpResponse) (rd : ℚ) (t : Nat) (rand : Nat → ℚ)
        (out : Nat → AttemptOutcome),
      out 0 = .http e1 → out 1 = .http e2 → out 2 = .http okr →
      e1.status = 503 → e2.status = 503 → okr.status = 200 → okr.contentLengthZero = false →
      jiraFetch 3 rd t rand out =
        { result := .success okr.body
          waits := [calculateBackoff 0 rd (rand 0), calculateBackoff 1 rd (rand 1)]
          attempts := 3 })
    ∧ (∀ (rc : Nat) (rd : ℚ) (t : Nat) (rand : Nat → ℚ) (out : Nat → AttemptOutcome),
        (jiraFetch rc rd t rand out).attempts ≤ rc + 1)
    ∧ (∀ (rc : Nat) (rd : ℚ) (t : Nat) (rand : Nat → ℚ) (out : Nat → AttemptOutcome),
        (∀ i, i ≤ rc → ∃ r, out i = .http r ∧ isRetryableError r.status = true) →
        ∃ r, out rc = .http r
          ∧ (jiraFetch rc rd t rand out).result =
              .failure (classifyErrorV2 r.status (parseErrorResponse r))
          ∧ (jiraFetch rc rd t rand out).waits.length = rc
          ∧ (jiraFetch rc rd t rand out).attempts = rc + 1) := by
  refine ⟨?_, ?_, ?_⟩
  · intro e1 e2 okr rd t rand out h0 h1 h2 hs1 hs2 hs3 hclz
    have hok1 : responseOk e1.status = false := by rw [hs1]; rfl
    have hok2 : responseOk e2.status = false := by rw [hs2]; rfl
    have hr1 : isRetryableError e1.status = true := by rw [hs1]; rfl
    have hr2 : isRetryableError e2.status = true := by rw [hs2]; rfl
    have hok3 : responseOk okr.status = true := by rw [hs3]; rfl
    have hne : (okr.status = 204 || okr.contentLengthZero) = false := by
      rw [hs3, hclz]; rfl
    unfold jiraFetch
    unfold fetchLoop
    rw [h0]
    simp only [hok1, hr1, Bool.false_eq_true, if_false]
    unfold fetchLoop
    rw [h1]
    simp only [hok2, hr2, Bool.false_eq_true, if_false]
    unfold fetchLoop
    rw [h2]
    simp [hok3, hne]
  · intro rc rd t rand out
    exact fetchLoop_attempts_le classifyErrorV2 rd t rand out rc 0
  · intro rc rd t rand out hall
    have := fetchLoop_exhaustion classifyErrorV2 rd t rand out rc 0 (by simpa using hall)
    simpa [jiraFetch] using this

/-- Witness for C1: the concrete 503, 503, 200 sequence with retryCount 3,
and full exhaustion with retryCount 1 against constant 503 responses. -/
theorem jiraFetch_retry_behavior_witness :
    jiraFetch 3 1000 30000 (fun _ => 0) out503x2then200 =
      { result := .success (JSVal.str "ok")
        waits := [calculateBackoff 0 1000 0, calculateBackoff 1 1000 0]
        attempts := 3 }
    ∧ (jiraFetch 1 1000 30000 (fun _ => 0) (fun _ => .http resp503)).waits.length = 1
    ∧ (jiraFetch 1 1000 30000 (fun _ => 0) (fun _ => .http resp503)).attempts = 2 := by
  have h1 := jiraFetch_retry_behavior.1 resp503 resp503 resp200 1000 30000 (fun _ => 0)
    out503x2then200 rfl rfl rfl rfl rfl rfl rfl
  have h3 := jiraFetch_retry_behavior.2.2 1 1000 30000 (fun _ => 0) (fun _ => .http resp503)
    (fun i _ => ⟨resp503, rfl, rfl⟩)
  obtain ⟨r, hr, hres, hlen, hatt⟩ := h3
  exact ⟨h1, hlen, hatt⟩

/-- C3: a first response with a non-2xx, non-retryable status resolves the
call on the first attempt with no backoff wait and no second attempt,
throwing the classified JiraApiException; in particular a first-attempt 401
throws the authentication-failure JiraApiException with status 401
immediately. -/
theorem jiraFetch_non_retryable (rc : Nat) (rd : ℚ) (t : Nat) (rand : Nat → ℚ)
    (out : Nat → AttemptOutcome) (r : HttpResponse)
    (h0 : out 0 = .http r) (hok : responseOk r.status = false)
    (hnr : isRetryableError r.status = false) :
    jiraFetch rc rd t rand out =
      { result := .failure (classifyErrorV2 r.status (parseErrorResponse r))
        waits := [], attempts := 1 }
    ∧ (r.status = 401 →
      jiraFetch rc rd t rand out =
        { result := .failure (.jiraApiException
            "Authentication failed. Check your JIRA_USERNAME and JIRA_PASSWORD." 401)
          waits := [], attempts := 1 }) := by
  have hmain : jiraFetch rc rd t rand out =
      { result := .failure (classifyErrorV2 r.status (parseErrorResponse r))
        waits := [], attempts := 1 } := by
    cases rc with
    | zero => simp [jiraFetch, fetchLoop, h0, hok]
    | succ n => simp [jiraFetch, fetchLoop, h0, hok, hnr]
  refine ⟨hmain, ?_⟩
  intro h401
  rw [hmain]
  simp [classifyErrorV2, h401]

/-- Witness for C3: a constant-401 exchange with retryCount 3 throws the
authentication-failure error on the first attempt with no waits. -/
theorem jiraFetch_non_retryable_witness :
    jiraFetch 3 1000 30000 (fun _ => 0) (fun _ => .http resp401) =
      { result := .failure (.jiraApiException
          "Authentication failed. Check your JIRA_USERNAME and JIRA_PASSWORD." 401)
        waits := [], attempts := 1 } :=
  (jiraFetch_non_retryable 3 1000 30000 (fun _ => 0) (fun _ => .http resp401)
    resp401 rfl rfl rfl).2 rfl

/-- C10: when every attempt of a jiraFetch or jiraAgileFetch call is aborted
by the per-attempt cancellation timer, the call throws the JiraApiException
whose message is Request timeout after the configured timeout in ms and
whose status is the sentinel 0; and whenever every attempt receives an HTTP
response with a valid status (at least 100), any JiraApiException thrown
carries a status of at least 100, so the 0 sentinel distinguishes timeouts
from HTTP error responses. -/
theorem jiraFetch_timeout_sentinel :
    (∀ (rc : Nat) (rd : ℚ) (t : Nat) (rand : Nat → ℚ) (out : Nat → AttemptOutcome),
      (∀ i, i ≤ rc → out i = .abortError) →
      (jiraFetch rc rd t rand out).result =
        .failure (.jiraApiException ("Request timeout after " ++ toString t ++ "ms") 0)
      ∧ (jiraAgileFetch rc rd t rand out).result =
        .failure (.jiraApiException ("Request timeout after " ++ toString t ++ "ms") 0))
    ∧ (∀ (rc : Nat) (rd : ℚ) (t : Nat) (rand : Nat → ℚ) (out : Nat → AttemptOutcome)
        (m : String) (s : Nat),
      (∀ i, ∃ r, out i = .http r ∧ 100 ≤ r.status) →
      ((jiraFetch rc rd t rand out).result = .failure (.jiraApiException m s) → 100 ≤ s)
      ∧ ((jiraAgileFetch rc rd t rand out).result = .failure (.jiraApiException m s) →
          100 ≤ s)) := by
  constructor
  · intro rc rd t rand out hall
    exact ⟨fetchLoop_all_abort classifyErrorV2 rd t rand out rc 0 (by simpa using hall),
      fetchLoop_all_abort classifyErrorAgile rd t rand out rc 0 (by simpa using hall)⟩
  · intro rc rd t rand out m s hout
    constructor
    · exact fetchLoop_http_status_lower_bound classifyErrorV2 rd t rand out
        (fun s' txt => (classify_carries_status s' txt).1) hout rc 0 m s
    · exact fetchLoop_http_status_lower_bound classifyErrorAgile rd t rand out
        (fun s' txt => (classify_carries_status s' txt).2) hout rc 0 m s

/-- Witness for C10: two all-abort attempts with a 30000 ms timeout yield the
timeout exception with status 0 on both families, and a constant-503
exchange never produces a status below 100. -/
theorem jiraFetch_timeout_sentinel_witness :
    (jiraFetch 1 1000 30000 (fun _ => 0) (fun _ => .abortError)).result =
      .failure (.jiraApiException ("Request timeout after " ++ toString 30000 ++ "ms") 0)
    ∧ (jiraAgileFetch 1 1000 30000 (fun _ => 0) (fun _ => .abortError)).result =
      .failure (.jiraApiException ("Request timeout after " ++ toString 30000 ++ "ms") 0)
    ∧ ((jiraFetch 0 1000 30000 (fun _ => 0) (fun _ => .http resp503)).result =
        .failure (.jiraApiException "Jira API error (503): HTTP 503" 503) → 100 ≤ 503) := by
  have h1 := jiraFetch_timeout_sentinel.1 1 1000 30000 (fun _ => 0) (fun _ => .abortError)
    (fun i _ => rfl)
  have h2 := (jiraFetch_timeout_sentinel.2 0 1000 30000 (fun _ => 0) (fun _ => .http resp503)
    "Jira API error (503): HTTP 503" 503 (fun i => ⟨resp503, rfl, by decide⟩)).1
  exact ⟨h1.1, h1.2, h2⟩

end JiraMcp
